import Mathlib

/-!
# Testnet faucet (`app.js`): a shallow embedding of the request handlers

The three POST handlers of `app.js` and `sendTokens` are translated line by line.
The three Mongoose collections are lists of documents, every effect on a collection
or on a chain is appended to a log, and a handler maps a store to a response and a
new store.

Request-body fields are JSON scalars (`JsVal`); nested objects, arrays and
non-integer numbers are not modelled.  A number is the integer value of the double the
JSON parser produced; every integer up to `maxSafeInteger` in magnitude is such a
value, and the statements that turn on a number's identity or on its printed form are
made for those.  `_id`, `__v` and the automatic timestamps of
the documents are left out.  The libraries the handlers call (ethers, the Mongoose
schema casts) are not part of the repository and are taken as a parameter (`Deps`).
-/

namespace Faucet

/-! ## JavaScript values -/

/-- A JSON scalar, or `undefined` for a field that is missing.  `number n` is the
double whose value is the integer `n`: a parsed body holds the double nearest to the
literal that was sent, so beyond `maxSafeInteger` only some `n` occur. -/
inductive JsVal where
  | undefined
  | null
  | bool (b : Bool)
  | number (n : Int)
  | string (s : String)
  deriving DecidableEq, Repr

namespace JsVal

/-- JavaScript truthiness, as tested by `!x` and `x || y`. -/
def truthy : JsVal → Bool
  | undefined => false
  | null => false
  | bool b => b
  | number n => n != 0
  | string s => s != ""

/-- The value of `a || b`. -/
def or (a b : JsVal) : JsVal :=
  if a.truthy then a else b

end JsVal

/-- The constant `Number.MAX_SAFE_INTEGER`, 2^53 - 1. -/
def maxSafeInteger : Int := 9007199254740991

/-- The test `Number.isSafeInteger` on an integer value: every integer in this range is
a double, and its decimal digits are what JavaScript prints for it. -/
def isSafeInteger (n : Int) : Bool :=
  decide (-maxSafeInteger ≤ n) && decide (n ≤ maxSafeInteger)

/-- The result of `String.prototype.toLowerCase` on ASCII text. -/
def toLowerCase (s : String) : String :=
  String.mk (s.data.map Char.toLower)

/-! ## Documents, collections, the store -/

/-- A document of `ChainSchema` (collection "ChainData"). -/
structure ChainDoc where
  name : JsVal
  chainId : JsVal
  rpcUrl : JsVal
  deriving DecidableEq, Repr

/-- A document of `TokenSchema` (collection "Tokens"). -/
structure TokenDoc where
  name : JsVal
  address : JsVal
  chainId : JsVal
  distributionAmount : JsVal
  deriving DecidableEq, Repr

/-- A document of `ClaimSchema` (collection "Claims"). -/
structure ClaimDoc where
  ipAddress : JsVal
  walletAddress : JsVal
  lastVisit : JsVal
  deriving DecidableEq, Repr

/-- The three models of `app.js`. -/
inductive Coll where
  | chains
  | tokens
  | claims
  deriving DecidableEq, Repr

/-- What a handler does to the outside world, in the order it does it. -/
inductive Effect where
  | find (c : Coll)
  | findOne (c : Coll)
  | create (c : Coll)
  | sendTokensCall (address : JsVal)
  | newProvider (rpcUrl : JsVal)
  | newWallet
  | newContract (address : JsVal)
  | mint (token recipient amount : JsVal)
  deriving DecidableEq, Repr

/-- The database together with the log of effects performed so far. -/
structure Store where
  chains : List ChainDoc
  tokens : List TokenDoc
  claims : List ClaimDoc
  log : List Effect
  deriving DecidableEq, Repr

/-- The library behaviour the handlers rely on; none of it is defined in `app.js`. -/
structure Deps where
  /-- The function `ethers.isAddress`. -/
  isAddress : JsVal → Bool
  /-- The text of `ethers.parseUnits(amount, decimals).toString()`, or the message it throws. -/
  parseUnits : JsVal → JsVal → Except String String
  /-- Mongoose's cast to `Number` of a string or boolean. -/
  coerceNumber : JsVal → Except String JsVal
  /-- Mongoose's cast to `String` of a number or boolean. -/
  coerceString : JsVal → Except String JsVal
  /-- The constructor `new ethers.JsonRpcProvider(rpcUrl)`. -/
  newProvider : JsVal → Except String Unit
  /-- The constructor `new ethers.Wallet(PRIVATE_KEY, provider)`. -/
  newWallet : Except String Unit
  /-- The constructor `new ethers.Contract(address, ABI, provider)`. -/
  newContract : JsVal → Except String Unit
  /-- The call `contract.mint(recipient, amount)` on the token at `token`. -/
  mint : JsVal → JsVal → JsVal → Except String JsVal
  /-- The text JavaScript prints for a double beyond the safe integers (shortest
  round-trip digits, exponent form from 10^21 on). -/
  numberText : Int → String

/-- The text a value contributes to a template literal. -/
def toText (D : Deps) : JsVal → String
  | .undefined => "undefined"
  | .null => "null"
  | .bool true => "true"
  | .bool false => "false"
  | .number n => if isSafeInteger n then toString n else D.numberText n
  | .string s => s

/-! ## The effect monad: a thrown error keeps the store reached so far -/

/-- A computation that may throw a message, over the store. -/
def Js (α : Type) : Type :=
  Store → Except String α × Store

namespace Js

/-- Return a value. -/
def ret {α : Type} (a : α) : Js α :=
  fun s => (.ok a, s)

/-- Throw `new Error(msg)` (or a runtime error with that message). -/
def fail {α : Type} (msg : String) : Js α :=
  fun s => (.error msg, s)

/-- Sequencing. -/
def andThen {α β : Type} (m : Js α) (f : α → Js β) : Js β :=
  fun s =>
    match m s with
    | (.ok a, s1) => f a s1
    | (.error e, s1) => (.error e, s1)

instance : Monad Js where
  pure := ret
  bind := andThen

/-- Append an effect to the log. -/
def emit (e : Effect) : Js Unit :=
  fun s => (.ok (), { s with log := s.log ++ [e] })

/-- Run a library call that may throw. -/
def lift {α : Type} (r : Except String α) : Js α :=
  fun s => (r, s)

/-- Read the store. -/
def store : Js Store :=
  fun s => (.ok s, s)

end Js

/-! ## Mongoose: schema casts, `find`, `findOne`, `create` -/

/-- The cast of a value stored in, or queried on, a `Number` path. -/
def castNumber (D : Deps) : JsVal → Except String JsVal
  | .undefined => .ok .undefined
  | .null => .ok .null
  | .number n => .ok (.number n)
  | v => D.coerceNumber v

/-- The cast of a value stored in, or queried on, a `String` path. -/
def castString (D : Deps) : JsVal → Except String JsVal
  | .undefined => .ok .undefined
  | .null => .ok .null
  | .string s => .ok (.string s)
  | v => D.coerceString v

/-- Whether a stored field satisfies the equality condition `q` of a filter:
`undefined` is sent as `null`, and `null` matches a field that is null or missing. -/
def fieldMatches (stored q : JsVal) : Bool :=
  match q with
  | .undefined => stored == .undefined || stored == .null
  | .null => stored == .undefined || stored == .null
  | v => stored == v

/-- The call `Chain.find().lean()`. -/
def findChains : Js (List ChainDoc) := do
  Js.emit (.find .chains)
  let s ← Js.store
  pure s.chains

/-- The call `Token.find({chainId}).lean()`. -/
def findTokens (D : Deps) (chainId : JsVal) : Js (List TokenDoc) := do
  let q ← Js.lift (castNumber D chainId)
  Js.emit (.find .tokens)
  let s ← Js.store
  pure (s.tokens.filter fun t => fieldMatches t.chainId q)

/-- The call `Chain.findOne({chainId}).lean()`. -/
def findOneChain (D : Deps) (chainId : JsVal) : Js (Option ChainDoc) := do
  let q ← Js.lift (castNumber D chainId)
  Js.emit (.findOne .chains)
  let s ← Js.store
  pure (s.chains.find? fun c => fieldMatches c.chainId q)

/-- The call `Token.findOne({address, chainId}).lean()`. -/
def findOneToken (D : Deps) (address chainId : JsVal) : Js (Option TokenDoc) := do
  let qa ← Js.lift (castString D address)
  let qc ← Js.lift (castNumber D chainId)
  Js.emit (.findOne .tokens)
  let s ← Js.store
  pure (s.tokens.find? fun t => fieldMatches t.address qa && fieldMatches t.chainId qc)

/-- The call `Claim.findOne({ipAddress}).lean()`. -/
def findOneClaimByIp (D : Deps) (ipAddress : JsVal) : Js (Option ClaimDoc) := do
  let q ← Js.lift (castString D ipAddress)
  Js.emit (.findOne .claims)
  let s ← Js.store
  pure (s.claims.find? fun c => fieldMatches c.ipAddress q)

/-- The call `Claim.findOne({walletAddress}).lean()`. -/
def findOneClaimByWallet (D : Deps) (walletAddress : JsVal) : Js (Option ClaimDoc) := do
  let q ← Js.lift (castString D walletAddress)
  Js.emit (.findOne .claims)
  let s ← Js.store
  pure (s.claims.find? fun c => fieldMatches c.walletAddress q)

/-- The call `Chain.create({name, chainId, rpcUrl})`: the document is cast by the
schema (no path is required) and inserted. -/
def createChain (D : Deps) (name chainId rpcUrl : JsVal) : Js Unit := do
  let n ← Js.lift (castString D name)
  let c ← Js.lift (castNumber D chainId)
  let u ← Js.lift (castString D rpcUrl)
  Js.emit (.create .chains)
  fun s => (.ok (), { s with chains := s.chains ++ [{ name := n, chainId := c, rpcUrl := u }] })

/-- The call `Token.create({address, chainId, distributionAmount})`; `name` is not passed. -/
def createToken (D : Deps) (address chainId distributionAmount : JsVal) : Js Unit := do
  let a ← Js.lift (castString D address)
  let c ← Js.lift (castNumber D chainId)
  let d ← Js.lift (castString D distributionAmount)
  Js.emit (.create .tokens)
  fun s => (.ok (), { s with tokens := s.tokens ++
    [{ name := .undefined, address := a, chainId := c, distributionAmount := d }] })

/-! ## `sendTokens` (lines 62-83) -/

/-- A promise returned by `contract.mint`, with the way it settles. -/
abbrev Pending := Except String JsVal

/-- The statement `txRequests[i].push(contract.mint(address, amount))` (line 77).  The
callee `txRequests[i].push` is evaluated before the argument, so a missing
`txRequests[i]` throws before `mint` is called. -/
def pushRequest (D : Deps) (txRequests : List (List Pending)) (i : Nat)
    (token recipient amount : JsVal) : Js (List (List Pending)) :=
  match txRequests[i]? with
  | none => Js.fail "Cannot read properties of undefined (reading 'push')"
  | some row => do
    Js.emit (.mint token recipient amount)
    pure (txRequests.set i (row ++ [D.mint token recipient amount]))

/-- The inner loop over `tokens` (lines 74-78), for the chain of index `i`. -/
def tokenLoop (D : Deps) (address : JsVal) (i : Nat) :
    List TokenDoc → List (List Pending) → Js (List (List Pending))
  | [], txRequests => pure txRequests
  | t :: rest, txRequests => do
    Js.emit (.newContract t.address)
    Js.lift (D.newContract t.address)
    let amount := t.distributionAmount
    let txRequests1 ← pushRequest D txRequests i t.address address amount
    tokenLoop D address i rest txRequests1

/-- The outer loop over `chainData` (lines 67-79), from index `i` on. -/
def chainLoop (D : Deps) (address : JsVal) :
    Nat → List ChainDoc → List (List Pending) → Js (List (List Pending))
  | _, [], txRequests => pure txRequests
  | i, c :: rest, txRequests => do
    Js.emit (.newProvider c.rpcUrl)
    Js.lift (D.newProvider c.rpcUrl)
    Js.emit .newWallet
    Js.lift D.newWallet
    let tokens ← findTokens D c.chainId
    let txRequests1 ← tokenLoop D address i tokens txRequests
    chainLoop D address (i + 1) rest txRequests1

/-- The function `sendTokens(address)`.  `txRequests` starts as `[]`; `Promise.all` of an
array of arrays resolves to that array, and an array has no method `wait` (line 82). -/
def sendTokens (D : Deps) (address : JsVal) : Js Unit := do
  Js.emit (.sendTokensCall address)
  let chainData ← findChains
  let txRequests ← chainLoop D address 0 chainData []
  let _results := txRequests
  Js.fail "results.wait is not a function"

/-! ## The HTTP layer -/

/-- What a handler needs of an Express request. -/
structure Request (β : Type) where
  /-- The header `req.headers["x-real-ip"]`. -/
  xRealIp : JsVal
  /-- The address `req.socket.remoteAddress`. -/
  remoteAddress : JsVal
  /-- The parsed body `req.body`, `none` when there is none. -/
  body : Option β

/-- The status set on `res` and the text passed to `res.send`, `none` when `send` was
never called. -/
structure Response where
  status : Nat
  body : Option String
  deriving DecidableEq, Repr

/-- The `try { ... } catch (err) { res.status(400).send(err.message) }` of every handler. -/
def respond (m : Js Response) : Store → Response × Store :=
  fun s =>
    match m s with
    | (.ok r, s1) => (r, s1)
    | (.error msg, s1) => ({ status := 400, body := some msg }, s1)

/-- The statement `if (!body) throw new Error(msg)`. -/
def requireBody {β : Type} (body : Option β) (msg : String) : Js β :=
  match body with
  | none => Js.fail msg
  | some b => pure b

/-- Reading the identifier `x`, where `locals` are the bindings in scope that hold a
request value.  The other names in scope at line 165 (`req`, `res`, `body`, the
declarations of lines 1-62, the `let`s of the `try` block that follow, the globals of
Node) hold objects or are not yet initialised, and none of them is spelled
`ipAddress`; an identifier that nothing binds throws a ReferenceError. -/
def readIdent (locals : List (String × JsVal)) (x : String) : Js JsVal :=
  match locals.lookup x with
  | some v => pure v
  | none => Js.fail (x ++ " is not defined")

/-- The body of `POST /add-chain`. -/
structure AddChainBody where
  name : JsVal
  chainId : JsVal
  rpcUrl : JsVal

/-- The body of `POST /add-token`. -/
structure AddTokenBody where
  name : JsVal
  tokenAddress : JsVal
  decimals : JsVal
  chainId : JsVal
  amount : JsVal

/-- The body of `POST /request-tokens`. -/
structure RequestTokensBody where
  walletAddress : JsVal

/-- The handler `app.post("/add-chain")` (lines 100-120). -/
def addChain (D : Deps) (req : Request AddChainBody) : Store → Response × Store :=
  respond do
    let body ← requireBody req.body "No chain passed with POST request."
    let name := body.name
    let chainId := body.chainId
    let rpcUrl := body.rpcUrl
    let chainExists ← findOneChain D chainId
    if chainExists.isSome then Js.fail "This chain has already been added."
    createChain D name chainId rpcUrl
    pure { status := 200, body := some ("SUCCESS: Chain: " ++ toText D name ++
      ", chain ID: " ++ toText D chainId ++ ", RPC URL: " ++ toText D rpcUrl) }

/-- The expression `tokenAddress.toLowerCase()` (line 129). -/
def lowerCaseOf : JsVal → Js JsVal
  | .string s => pure (.string (toLowerCase s))
  | .undefined => Js.fail "Cannot read properties of undefined (reading 'toLowerCase')"
  | .null => Js.fail "Cannot read properties of null (reading 'toLowerCase')"
  | _ => Js.fail "tokenAddress.toLowerCase is not a function"

/-- The handler `app.post("/add-token")` (lines 122-148). -/
def addToken (D : Deps) (req : Request AddTokenBody) : Store → Response × Store :=
  respond do
    let body ← requireBody req.body "No token passed with POST request."
    let name := body.name
    let tokenAddress := body.tokenAddress
    let decimals := body.decimals
    let chainId := body.chainId
    let amount := body.amount
    let address ← lowerCaseOf tokenAddress
    let distributionAmount ← Js.lift (D.parseUnits amount decimals)
    if !D.isAddress address then Js.fail "Invalid token address."
    let addressExistsOnChain ← findOneToken D address chainId
    if addressExistsOnChain.isSome then
      Js.fail "This token on this chain has already been added."
    createToken D address chainId (.string distributionAmount)
    pure { status := 200, body := some ("SUCCESS: Token: " ++ toText D name ++
      ", address: " ++ toText D address ++ ", chain ID: " ++ toText D chainId ++
      ", amount: " ++ distributionAmount) }

/-- Lines 173-175 of the handler: `await sendTokens(walletAddress)`, then
`res.status(200)`, which sets the status and sends nothing. -/
def sendAndAnswer (D : Deps) (walletAddress : JsVal) : Js Response := do
  sendTokens D walletAddress
  pure { status := 200, body := none }

/-- The handler `app.post("/request-tokens")` (lines 150-180).  The filter of line 165
reads `ipAddress`, while the requester's address is bound to `ip` (line 151). -/
def requestTokens (D : Deps) (req : Request RequestTokensBody) : Store → Response × Store :=
  let ip := req.xRealIp.or req.remoteAddress
  respond do
    let body ← requireBody req.body "No body passed with POST request."
    let walletAddress := body.walletAddress
    if !walletAddress.truthy then Js.fail "No wallet address passed with POST request."
    let validWalletAddress := D.isAddress walletAddress
    if !validWalletAddress then Js.fail "Invalid wallet address."
    let ipAddress ← readIdent
      [("ip", ip), ("walletAddress", walletAddress),
        ("validWalletAddress", .bool validWalletAddress)] "ipAddress"
    let ipClaimed ← findOneClaimByIp D ipAddress
    let addressClaimed ← findOneClaimByWallet D walletAddress
    if ipClaimed.isSome || addressClaimed.isSome then
      Js.fail "You have already claimed from the testnet faucet."
    sendAndAnswer D walletAddress

/-! ## The plan `sendTokens` walks -/

/-- The tokens `Token.find({chainId: c.chainId})` returns for the chain `c`, none when
the filter cannot be cast. -/
def tokensOn (D : Deps) (tokens : List TokenDoc) (c : ChainDoc) : List TokenDoc :=
  match castNumber D c.chainId with
  | .ok q => tokens.filter fun t => fieldMatches t.chainId q
  | .error _ => []

/-- The (chain, token) obligations: chains in registry order and, within a chain, its
tokens in the order `find` returns them. -/
def obligations (D : Deps) (s : Store) : List (ChainDoc × TokenDoc) :=
  s.chains.flatMap fun c => (tokensOn D s.tokens c).map fun t => (c, t)

/-- Whether an effect is a `mint` call. -/
def Effect.isMint : Effect → Bool
  | .mint _ _ _ => true
  | _ => false

/-! ## A concrete instance of the libraries, for evaluating the handlers -/

/-- Whether a character is a hexadecimal digit. -/
def isHexChar (c : Char) : Bool :=
  c.isDigit || ('a' ≤ c && c ≤ 'f') || ('A' ≤ c && c ≤ 'F')

/-- A stand-in for the libraries: `0x` and forty hexadecimal digits is an address (no
checksum), `parseUnits` pads a digit string with `decimals` zeros (18 by default), the
casts refuse what is not already of the type, and the constructors succeed.  Its
`numberText` prints every digit, which JavaScript does not do; no number beyond the
safe integers is used with it. -/
def sampleDeps : Deps where
  isAddress v :=
    match v with
    | .string s => s.data.length == 42 && s.data.take 2 == ['0', 'x'] &&
        (s.data.drop 2).all isHexChar
    | _ => false
  parseUnits amount decimals :=
    match amount, decimals with
    | .string a, .number d =>
      if a.data.all Char.isDigit && a != "" then .ok (a ++ String.mk (List.replicate d.toNat '0'))
      else .error "invalid FixedNumber string value"
    | .string a, .undefined =>
      if a.data.all Char.isDigit && a != "" then .ok (a ++ String.mk (List.replicate 18 '0'))
      else .error "invalid FixedNumber string value"
    | _, _ => .error "invalid value"
  coerceNumber _ := .error "Cast to Number failed"
  coerceString _ := .error "Cast to string failed"
  newProvider _ := .ok ()
  newWallet := .ok ()
  newContract _ := .ok ()
  mint _ _ _ := .ok (.string "0xtx")
  numberText n := toString n

/-- A store with nothing in it. -/
def emptyStore : Store :=
  { chains := [], tokens := [], claims := [], log := [] }

/-- A wallet address. -/
def walletA : JsVal := .string "0x00000000000000000000000000000000000000aa"

/-- A second wallet address. -/
def walletB : JsVal := .string "0x00000000000000000000000000000000000000bb"

/-- A registry of one chain with one token on it, and no claim. -/
def registryStore : Store :=
  { chains := [{ name := .string "Sepolia", chainId := .number 11155111,
                 rpcUrl := .string "https://rpc.example" }],
    tokens := [{ name := .undefined,
                 address := .string "0x00000000000000000000000000000000000000cc",
                 chainId := .number 11155111,
                 distributionAmount := .string "1000000000000000000" }],
    claims := [],
    log := [] }

/-- The same registry after `walletA` has claimed from 1.2.3.4. -/
def claimedStore : Store :=
  { registryStore with
    claims := [{ ipAddress := .string "1.2.3.4", walletAddress := walletA,
                 lastVisit := .undefined }] }

/-- A `/request-tokens` request from 1.2.3.4 for the wallet `w`. -/
def claimRequest (w : JsVal) : Request RequestTokensBody :=
  { xRealIp := .string "1.2.3.4", remoteAddress := .string "10.0.0.1",
    body := some { walletAddress := w } }

/-- An `/add-chain` request with the given body fields. -/
def chainRequest (name chainId rpcUrl : JsVal) : Request AddChainBody :=
  { xRealIp := .undefined, remoteAddress := .string "10.0.0.1",
    body := some { name := name, chainId := chainId, rpcUrl := rpcUrl } }

/-- An `/add-token` request with the given body fields. -/
def tokenRequest (name tokenAddress decimals chainId amount : JsVal) : Request AddTokenBody :=
  { xRealIp := .undefined, remoteAddress := .string "10.0.0.1",
    body := some { name := name, tokenAddress := tokenAddress, decimals := decimals,
                   chainId := chainId, amount := amount } }

/-- The body of a request to add a token on chain 1 under a mixed-case address. -/
def upperBody : AddTokenBody :=
  { name := .string "T", tokenAddress := .string "0x00000000000000000000000000000000000000CC",
    decimals := .number 18, chainId := .number 1, amount := .string "5" }

/-- The body of a request to add the same token on chain 1 under its lower-case address. -/
def lowerBody : AddTokenBody :=
  { name := .string "T", tokenAddress := .string "0x00000000000000000000000000000000000000cc",
    decimals := .number 6, chainId := .number 1, amount := .string "7" }

/-- The request carrying `upperBody`. -/
def upperRequest : Request AddTokenBody :=
  { xRealIp := .undefined, remoteAddress := .string "10.0.0.1", body := some upperBody }

/-- The request carrying `lowerBody`. -/
def lowerRequest : Request AddTokenBody :=
  { xRealIp := .undefined, remoteAddress := .string "10.0.0.1", body := some lowerBody }

/-! ## Sequences of requests and the uniqueness invariants -/

/-- The store after the `/add-chain` requests `reqs`, handled one after the other. -/
def addChainAll (D : Deps) (reqs : List (Request AddChainBody)) (s : Store) : Store :=
  reqs.foldl (fun st r => (addChain D r st).2) s

/-- The store after the `/add-token` requests `reqs`, handled one after the other. -/
def addTokenAll (D : Deps) (reqs : List (Request AddTokenBody)) (s : Store) : Store :=
  reqs.foldl (fun st r => (addToken D r st).2) s

/-- The answers to the `/request-tokens` requests `reqs`, handled one after the other,
and the store they leave.  A run of the handler that has logged no effect has not
reached an `await` (each `await` of lines 164-173 is on a logged operation), so
concurrent runs of that kind are runs in the order in which they were started. -/
def requestTokensAll (D : Deps) :
    List (Request RequestTokensBody) → Store → List Response × Store
  | [], s => ([], s)
  | r :: rest, s =>
    ((requestTokens D r s).1 :: (requestTokensAll D rest (requestTokens D r s).2).1,
      (requestTokensAll D rest (requestTokens D r s).2).2)

/-- Whether an effect is a call of `sendTokens`: the request that logs one has passed
the claim check of line 171. -/
def Effect.isSendTokensCall : Effect → Bool
  | .sendTokensCall _ => true
  | _ => false

/-- A `/request-tokens` request from 5.6.7.8 for the wallet `w`. -/
def otherClaimRequest (w : JsVal) : Request RequestTokensBody :=
  { xRealIp := .string "5.6.7.8", remoteAddress := .string "10.0.0.1",
    body := some { walletAddress := w } }

/-- The `chainId`s of the stored chains, in order. -/
def chainIds (s : Store) : List JsVal :=
  s.chains.map fun c => c.chainId

/-- The (address, chainId) pairs of the stored tokens, in order. -/
def tokenKeys (s : Store) : List (JsVal × JsVal) :=
  s.tokens.map fun t => (t.address, t.chainId)

/-- Every stored token address is a string that lower-casing leaves alone. -/
def lowercaseAddresses (s : Store) : Prop :=
  ∀ t ∈ s.tokens, ∃ a, t.address = .string a ∧ toLowerCase a = a

end Faucet

namespace Faucet

/-! ## Lemmas: `/request-tokens` -/

theorem readIdent_ipAddress (ip w v : JsVal) (s : Store) :
    readIdent [("ip", ip), ("walletAddress", w), ("validWalletAddress", v)] "ipAddress" s
      = (.error "ipAddress is not defined", s) := by
  have h1 : ("ipAddress" == "ip") = false := by decide
  have h2 : ("ipAddress" == "walletAddress") = false := by decide
  have h3 : ("ipAddress" == "validWalletAddress") = false := by decide
  have h4 : "ipAddress" ++ " is not defined" = "ipAddress is not defined" := by decide
  simp [readIdent, List.lookup, h1, h2, h3, h4, Js.fail]

theorem requestTokens_reference_error (D : Deps) (req : Request RequestTokensBody) (b : RequestTokensBody)
    (s : Store) (hb : req.body = some b) (ht : b.walletAddress.truthy = true)
    (hv : D.isAddress b.walletAddress = true) :
    requestTokens D req s = ({ status := 400, body := some "ipAddress is not defined" }, s) := by
  simp [requestTokens, respond, requireBody, hb, ht, hv, bind, pure, Js.andThen, Js.ret,
    readIdent_ipAddress]

theorem requestTokens_rejects_invalid (D : Deps) (req : Request RequestTokensBody)
    (b : RequestTokensBody) (s : Store) (hb : req.body = some b)
    (ht : b.walletAddress.truthy = true) (hv : D.isAddress b.walletAddress = false) :
    requestTokens D req s = ({ status := 400, body := some "Invalid wallet address." }, s) := by
  simp [requestTokens, respond, requireBody, hb, ht, hv, bind, pure, Js.andThen, Js.ret, Js.fail]

theorem requestTokens_rejects_falsy (D : Deps) (req : Request RequestTokensBody)
    (b : RequestTokensBody) (s : Store) (hb : req.body = some b)
    (ht : b.walletAddress.truthy = false) :
    requestTokens D req s
      = ({ status := 400, body := some "No wallet address passed with POST request." }, s) := by
  simp [requestTokens, respond, requireBody, hb, ht, bind, pure, Js.andThen, Js.ret, Js.fail]

theorem requestTokens_no_body (D : Deps) (req : Request RequestTokensBody) (s : Store)
    (hb : req.body = none) :
    requestTokens D req s
      = ({ status := 400, body := some "No body passed with POST request." }, s) := by
  simp [requestTokens, respond, requireBody, hb, bind, Js.andThen, Js.fail]

/-- Every run of the handler ends in the `catch` and leaves the store, log included,
as it found it. -/
theorem requestTokens_total (D : Deps) (req : Request RequestTokensBody) (s : Store) :
    (requestTokens D req s).1.status = 400 ∧ (requestTokens D req s).2 = s := by
  cases hb : req.body with
  | none => simp [requestTokens_no_body D req s hb]
  | some b =>
    cases ht : b.walletAddress.truthy with
    | false => simp [requestTokens_rejects_falsy D req b s hb ht]
    | true =>
      cases hv : D.isAddress b.walletAddress with
      | false => simp [requestTokens_rejects_invalid D req b s hb ht hv]
      | true => simp [requestTokens_reference_error D req b s hb ht hv]

/-! ## Lemmas: `sendTokens` -/

theorem pushRequest_nil (D : Deps) (i : Nat) (t r a : JsVal) (s : Store) :
    pushRequest D [] i t r a s
      = (.error "Cannot read properties of undefined (reading 'push')", s) := by
  simp [pushRequest, Js.fail]

/-- On a chain without tokens the loop body builds a provider and a signer and reads
the tokens; `txRequests` is still `[]` afterwards. -/
theorem chainLoop_empty (D : Deps) (a : JsVal) (T : List TokenDoc) (chains : List ChainDoc) :
    ∀ (i : Nat) (s : Store), s.tokens = T → (∀ c ∈ chains, tokensOn D T c = []) →
      ∃ r extra, chainLoop D a i chains [] s = (r, { s with log := s.log ++ extra }) ∧
        (∀ tx, r = .ok tx → tx = []) ∧
        (∀ e ∈ extra, e = .find .tokens ∨ e = .newWallet ∨ ∃ u, e = .newProvider u) := by
  induction chains with
  | nil =>
    intro i s _ _
    exact ⟨.ok [], [], by simp [chainLoop, pure, Js.ret], by simp, by simp⟩
  | cons c rest ih =>
    intro i s hs hT
    have hc : tokensOn D T c = [] := hT c (by simp)
    have hrest : ∀ c ∈ rest, tokensOn D T c = [] := fun c hc => hT c (by simp [hc])
    cases hP : D.newProvider c.rpcUrl with
    | error e =>
      exact ⟨.error e, [.newProvider c.rpcUrl],
        by simp [chainLoop, bind, Js.andThen, Js.emit, Js.lift, hP], by simp, by simp⟩
    | ok _ =>
      cases hW : D.newWallet with
      | error e =>
        exact ⟨.error e, [.newProvider c.rpcUrl, .newWallet],
          by simp [chainLoop, bind, Js.andThen, Js.emit, Js.lift, hP, hW], by simp, by simp⟩
      | ok _ =>
        cases hC : castNumber D c.chainId with
        | error e =>
          exact ⟨.error e, [.newProvider c.rpcUrl, .newWallet],
            by simp [chainLoop, findTokens, bind, Js.andThen, Js.emit, Js.lift, hP, hW, hC],
            by simp, by simp⟩
        | ok q =>
          have hq : List.filter (fun t => fieldMatches t.chainId q) T = [] := by
            simpa [tokensOn, hC] using hc
          obtain ⟨r, extra, h1, h2, h3⟩ := ih (i + 1)
            { s with log := s.log ++ [.newProvider c.rpcUrl, .newWallet, .find .tokens] }
            (by simpa using hs) hrest
          refine ⟨r, [.newProvider c.rpcUrl, .newWallet, .find .tokens] ++ extra, ?_, h2, ?_⟩
          · simp [chainLoop, findTokens, tokenLoop, bind, pure, Js.andThen, Js.ret, Js.emit,
              Js.lift, Js.store, hP, hW, hC, hs, hq] at h1 ⊢
            simpa [List.append_assoc] using h1
          · intro e he
            simp only [List.mem_append, List.mem_cons, List.mem_singleton] at he
            rcases he with (he | he | he | he) | he
            · exact Or.inr (Or.inr ⟨_, he⟩)
            · exact Or.inr (Or.inl he)
            · exact Or.inl he
            · cases he
            · exact h3 e he

/-- Whatever the registry holds, `sendTokens` ends in a throw: its last statement calls
`wait` on an array. -/
theorem sendTokens_throws (D : Deps) (a : JsVal) (s : Store) :
    ∃ e, (sendTokens D a s).1 = .error e := by
  simp only [sendTokens, bind, Js.andThen]
  repeat' split
  all_goals simp_all [Js.fail]

/-! ## Lemmas: the registry handlers -/

theorem fieldMatches_self (v : JsVal) : fieldMatches v v = true := by
  cases v <;> simp [fieldMatches]

theorem ne_of_fieldMatches_false {v q : JsVal} (h : fieldMatches v q = false) : v ≠ q := by
  intro hvq
  rw [hvq, fieldMatches_self] at h
  cases h

/-- The two ways `/add-chain` can end: a 400 with the three collections untouched, or
one document appended whose `chainId` no stored chain matched. -/
theorem addChain_cases (D : Deps) (req : Request AddChainBody) (s : Store) :
    ((addChain D req s).1.status = 400 ∧ (addChain D req s).2.chains = s.chains ∧
        (addChain D req s).2.tokens = s.tokens ∧ (addChain D req s).2.claims = s.claims ∧
        ∀ e ∈ (addChain D req s).2.log, e ∈ s.log ∨ e = .findOne .chains) ∨
    (∃ b n q u, req.body = some b ∧ castString D b.name = .ok n ∧
        castNumber D b.chainId = .ok q ∧ castString D b.rpcUrl = .ok u ∧
        s.chains.find? (fun c => fieldMatches c.chainId q) = none ∧
        (addChain D req s).1 = { status := 200, body := some ("SUCCESS: Chain: " ++
          toText D b.name ++ ", chain ID: " ++ toText D b.chainId ++ ", RPC URL: " ++
          toText D b.rpcUrl) } ∧
        (addChain D req s).2 = { s with
          chains := s.chains ++ [{ name := n, chainId := q, rpcUrl := u }],
          log := s.log ++ [.findOne .chains, .create .chains] }) := by
  cases hb : req.body with
  | none =>
    left
    simp [addChain, respond, requireBody, hb, bind, Js.andThen, Js.fail]
    exact fun e he => Or.inl he
  | some b =>
    cases hq : castNumber D b.chainId with
    | error e =>
      left
      simp [addChain, respond, requireBody, findOneChain, hb, hq, bind, pure, Js.andThen,
        Js.ret, Js.lift]
      exact fun e he => Or.inl he
    | ok q =>
      cases hf : s.chains.find? (fun c => fieldMatches c.chainId q) with
      | some c =>
        left
        simp [addChain, respond, requireBody, findOneChain, hb, hq, hf, bind, pure,
          Js.andThen, Js.ret, Js.lift, Js.emit, Js.store, Js.fail]
      | none =>
        cases hn : castString D b.name with
        | error e =>
          left
          simp [addChain, respond, requireBody, findOneChain, createChain, hb, hq, hf, hn, bind,
            pure, Js.andThen, Js.ret, Js.lift, Js.emit, Js.store, Js.fail]
        | ok n =>
          cases hu : castString D b.rpcUrl with
          | error e =>
            left
            simp [addChain, respond, requireBody, findOneChain, createChain, hb, hq, hf, hn, hu,
              bind, pure, Js.andThen, Js.ret, Js.lift, Js.emit, Js.store, Js.fail]
          | ok u =>
            right
            refine ⟨b, n, q, u, rfl, hn, hq, hu, hf, ?_, ?_⟩ <;>
            simp [addChain, respond, requireBody, findOneChain, createChain, hb, hq, hf, hn, hu,
              bind, pure, Js.andThen, Js.ret, Js.lift, Js.emit, Js.store, Js.fail]

theorem ofNat_toNat_small (n : Nat) (h : n < 200) : (Char.ofNat n).toNat = n := by
  have hv : n.isValidChar := Or.inl (by omega)
  simp [Char.ofNat, hv, Char.toNat, Char.ofNatAux, UInt32.toNat]

theorem toLower_toLower (c : Char) : c.toLower.toLower = c.toLower := by
  unfold Char.toLower
  simp only []
  split
  · rename_i h
    have h2 : (Char.ofNat (c.toNat + 32)).toNat = c.toNat + 32 :=
      ofNat_toNat_small _ (by omega)
    rw [if_neg]
    rw [h2]; omega
  · rfl

theorem toLowerCase_idem (a : String) : toLowerCase (toLowerCase a) = toLowerCase a := by
  have h : Char.toLower ∘ Char.toLower = Char.toLower := funext toLower_toLower
  simp [toLowerCase, h]

/-- The two ways `/add-token` can end: a 400 with the three collections untouched, or
one document appended, with the lower-cased address, that no stored token matched. -/
theorem addToken_cases (D : Deps) (req : Request AddTokenBody) (s : Store) :
    ((addToken D req s).1.status = 400 ∧ (addToken D req s).2.chains = s.chains ∧
        (addToken D req s).2.tokens = s.tokens ∧ (addToken D req s).2.claims = s.claims ∧
        ∀ e ∈ (addToken D req s).2.log, e ∈ s.log ∨ e = .findOne .tokens) ∨
    (∃ b a q d, req.body = some b ∧ b.tokenAddress = .string a ∧
        D.parseUnits b.amount b.decimals = .ok d ∧
        D.isAddress (.string (toLowerCase a)) = true ∧
        castNumber D b.chainId = .ok q ∧
        s.tokens.find? (fun t => fieldMatches t.address (.string (toLowerCase a)) &&
          fieldMatches t.chainId q) = none ∧
        (addToken D req s).1.status = 200 ∧
        (addToken D req s).2 = { s with
          tokens := s.tokens ++ [{ name := .undefined, address := .string (toLowerCase a),
                                   chainId := q, distributionAmount := .string d }],
          log := s.log ++ [.findOne .tokens, .create .tokens] }) := by
  cases hb : req.body with
  | none =>
    left
    simp [addToken, respond, requireBody, hb, bind, Js.andThen, Js.fail]
    exact fun e he => Or.inl he
  | some b =>
    cases ha : b.tokenAddress with
    | undefined | null | bool _ | number _ =>
      left
      simp [addToken, respond, requireBody, lowerCaseOf, hb, ha, bind, pure, Js.andThen,
        Js.ret, Js.fail]
      exact fun e he => Or.inl he
    | string a =>
      cases hd : D.parseUnits b.amount b.decimals with
      | error e =>
        left
        simp [addToken, respond, requireBody, lowerCaseOf, hb, ha, hd, bind, pure, Js.andThen,
          Js.ret, Js.fail, Js.lift]
        exact fun e he => Or.inl he
      | ok d =>
        cases hv : D.isAddress (.string (toLowerCase a)) with
        | false =>
          left
          simp [addToken, respond, requireBody, lowerCaseOf, hb, ha, hd, hv, bind, pure,
            Js.andThen, Js.ret, Js.fail, Js.lift]
          exact fun e he => Or.inl he
        | true =>
          cases hq : castNumber D b.chainId with
          | error e =>
            left
            simp [addToken, respond, requireBody, lowerCaseOf, findOneToken, castString, hb, ha,
              hd, hv, hq, bind, pure, Js.andThen, Js.ret, Js.fail, Js.lift]
            exact fun e he => Or.inl he
          | ok q =>
            cases hf : s.tokens.find? (fun t =>
                fieldMatches t.address (.string (toLowerCase a)) &&
                  fieldMatches t.chainId q) with
            | some t =>
              left
              simp [addToken, respond, requireBody, lowerCaseOf, findOneToken, castString, hb,
                ha, hd, hv, hq, hf, bind, pure, Js.andThen, Js.ret, Js.fail, Js.lift, Js.emit,
                Js.store]
            | none =>
              right
              refine ⟨b, a, q, d, rfl, ha, hd, hv, hq, hf, ?_, ?_⟩ <;>
              simp [addToken, respond, requireBody, lowerCaseOf, findOneToken, createToken,
                castString, hb, ha, hd, hv, hq, hf, bind, pure, Js.andThen, Js.ret, Js.fail,
                Js.lift, Js.emit, Js.store]

theorem sendAndAnswer_throws (D : Deps) (a : JsVal) (s : Store) :
    (respond (sendAndAnswer D a) s).1.status = 400 := by
  obtain ⟨e, he⟩ := sendTokens_throws D a s
  have h : sendTokens D a s = (.error e, (sendTokens D a s).2) := Prod.ext he rfl
  simp only [respond, sendAndAnswer, bind, Js.andThen]
  rw [h]

theorem tokensOn_of_obligations (D : Deps) (s : Store) (h : obligations D s = []) :
    ∀ c ∈ s.chains, tokensOn D s.tokens c = [] := by
  intro c hc
  simp only [obligations, List.flatMap_eq_nil_iff, List.map_eq_nil_iff] at h
  exact h c hc

/-- With no obligation, `sendTokens` only reads the registry and builds providers and
signers. -/
theorem sendTokens_log_empty (D : Deps) (a : JsVal) (s : Store)
    (h : ∀ c ∈ s.chains, tokensOn D s.tokens c = []) :
    ∃ extra, (sendTokens D a s).2 = { s with log := s.log ++ extra } ∧
      ∀ e ∈ extra, e.isMint = false ∧ ∀ x, e ≠ .newContract x := by
  obtain ⟨r, extra, h1, _, h3⟩ := chainLoop_empty D a s.tokens s.chains 0
    { s with log := s.log ++ [.sendTokensCall a, .find .chains] } rfl h
  refine ⟨[.sendTokensCall a, .find .chains] ++ extra, ?_, ?_⟩
  · simp only [sendTokens, findChains, bind, pure, Js.andThen, Js.ret, Js.emit, Js.store,
      List.append_assoc, List.singleton_append] at h1 ⊢
    rw [h1]
    cases r <;> simp [Js.fail]
  · intro e he
    simp only [List.mem_append, List.mem_cons, List.mem_singleton] at he
    rcases he with (he | he | he) | he
    · subst he; exact ⟨rfl, fun x hx => by cases hx⟩
    · subst he; exact ⟨rfl, fun x hx => by cases hx⟩
    · cases he
    · rcases h3 e he with h4 | h4 | ⟨u, h4⟩ <;> subst h4 <;>
        exact ⟨rfl, fun x hx => by cases hx⟩

/-! ## The claims about `/request-tokens` and `sendTokens` -/

/-- C1, the code at a repeated claim: the store already holds a claim from 1.2.3.4, the
request comes from 1.2.3.4 with a new, valid wallet.  The handler answers 400 with the
text "ipAddress is not defined", not with the already-claimed message; nothing is
called and the store is left as it was. -/
theorem requestTokens_prior_claim_answer :
    (∃ c ∈ claimedStore.claims, c.ipAddress = (claimRequest walletB).xRealIp) ∧
    sampleDeps.isAddress walletB = true ∧
    requestTokens sampleDeps (claimRequest walletB) claimedStore
      = ({ status := 400, body := some "ipAddress is not defined" }, claimedStore) ∧
    (requestTokens sampleDeps (claimRequest walletB) claimedStore).1.body
      ≠ some "You have already claimed from the testnet faucet." := by
  have hv : sampleDeps.isAddress walletB = true := by decide
  have h := requestTokens_reference_error sampleDeps (claimRequest walletB) ⟨walletB⟩ claimedStore rfl
    (by decide) hv
  refine ⟨⟨_, List.mem_singleton.mpr rfl, rfl⟩, hv, h, ?_⟩
  rw [h]
  decide

/-- C2, the claim fails: a valid wallet asks for tokens, the ledger holds no claim, and
after the handler has run the ledger still holds none. -/
theorem requestTokens_inserts_no_claim :
    sampleDeps.isAddress walletB = true ∧ registryStore.claims = [] ∧
    (requestTokens sampleDeps (claimRequest walletB) registryStore).2.claims = [] ∧
    ¬ ∃ c ∈ (requestTokens sampleDeps (claimRequest walletB) registryStore).2.claims,
        c.walletAddress = walletB := by
  have h := (requestTokens_total sampleDeps (claimRequest walletB) registryStore).2
  refine ⟨by decide, rfl, by rw [h]; rfl, ?_⟩
  rw [h]
  simp [registryStore]

/-- C2 as amended: `/request-tokens` never writes.  The store after a request, log
included, is the store before it, so no claim is inserted, and the same request sent
again is answered as it was the first time. -/
theorem requestTokens_leaves_store (D : Deps) (req : Request RequestTokensBody) (s : Store) :
    (requestTokens D req s).2 = s ∧
    (requestTokens D req s).2.claims = s.claims ∧
    requestTokens D req (requestTokens D req s).2 = requestTokens D req s := by
  have h := (requestTokens_total D req s).2
  exact ⟨h, by rw [h], by rw [h]⟩

/-- C3, the code at a first claim: a valid wallet, no claim on record, one chain with one
token.  The handler answers 400 "ipAddress is not defined", not 200. -/
theorem requestTokens_fresh_request_answer :
    sampleDeps.isAddress walletA = true ∧ registryStore.claims = [] ∧
    (requestTokens sampleDeps (claimRequest walletA) registryStore).1
      = { status := 400, body := some "ipAddress is not defined" } ∧
    (requestTokens sampleDeps (claimRequest walletA) registryStore).1.status ≠ 200 := by
  have hv : sampleDeps.isAddress walletA = true := by decide
  have h := requestTokens_reference_error sampleDeps (claimRequest walletA) ⟨walletA⟩ registryStore rfl
    (by decide) hv
  refine ⟨hv, rfl, by rw [h], ?_⟩
  rw [h]
  decide

/-- C4, the claim fails: a body whose `walletAddress` is the empty string has the field,
the field is not an address, and the answer is the missing-wallet message, not "Invalid
wallet address.". -/
theorem requestTokens_empty_wallet_answer :
    (JsVal.string "" ≠ JsVal.undefined) ∧
    sampleDeps.isAddress (.string "") = false ∧
    (requestTokens sampleDeps (claimRequest (.string "")) emptyStore).1
      = { status := 400, body := some "No wallet address passed with POST request." } ∧
    (requestTokens sampleDeps (claimRequest (.string "")) emptyStore).1.body
      ≠ some "Invalid wallet address." := by
  have h := requestTokens_rejects_falsy sampleDeps (claimRequest (.string "")) ⟨.string ""⟩ emptyStore
    rfl (by decide)
  refine ⟨by decide, by decide, by rw [h], ?_⟩
  rw [h]
  decide

/-- C4 as amended: when `ethers.isAddress` rejects `walletAddress`, the handler answers
400 and leaves the store, log included, as it was (no read or write of Claims, no call
of `sendTokens`); the message is "Invalid wallet address." when the value is truthy
and the missing-wallet message when it is falsy (empty string, 0, false, null). -/
theorem requestTokens_invalid_wallet (D : Deps) (req : Request RequestTokensBody)
    (b : RequestTokensBody) (s : Store) (hb : req.body = some b)
    (hv : D.isAddress b.walletAddress = false) :
    (requestTokens D req s).2 = s ∧ (requestTokens D req s).1.status = 400 ∧
    (b.walletAddress.truthy = true →
      (requestTokens D req s).1.body = some "Invalid wallet address.") ∧
    (b.walletAddress.truthy = false →
      (requestTokens D req s).1.body
        = some "No wallet address passed with POST request.") := by
  refine ⟨(requestTokens_total D req s).2, (requestTokens_total D req s).1, ?_, ?_⟩
  · intro ht
    rw [requestTokens_rejects_invalid D req b s hb ht hv]
  · intro ht
    rw [requestTokens_rejects_falsy D req b s hb ht]

/-- C4, an instance: the wallet "hello" is truthy and not an address. -/
theorem requestTokens_invalid_wallet_witness :
    (requestTokens sampleDeps (claimRequest (.string "hello")) claimedStore).2 = claimedStore ∧
    (requestTokens sampleDeps (claimRequest (.string "hello")) claimedStore).1.status = 400 ∧
    (requestTokens sampleDeps (claimRequest (.string "hello")) claimedStore).1.body
      = some "Invalid wallet address." :=
  have h := requestTokens_invalid_wallet sampleDeps (claimRequest (.string "hello"))
    ⟨.string "hello"⟩ claimedStore rfl (by decide)
  ⟨h.1, h.2.1, h.2.2.1 (by decide)⟩

/-- C5, the code at one chain with one token: the plan has one obligation, `sendTokens`
throws at `txRequests[0].push` and no `mint` has been called. -/
theorem sendTokens_one_obligation :
    (obligations sampleDeps registryStore).length = 1 ∧
    (sendTokens sampleDeps walletA registryStore).1
      = .error "Cannot read properties of undefined (reading 'push')" ∧
    (sendTokens sampleDeps walletA registryStore).2.log
      = [.sendTokensCall walletA, .find .chains,
         .newProvider (.string "https://rpc.example"), .newWallet, .find .tokens,
         .newContract (.string "0x00000000000000000000000000000000000000cc")] ∧
    (sendTokens sampleDeps walletA registryStore).2.log.filter Effect.isMint = [] := by
  refine ⟨by decide, by rfl, by rfl, by rfl⟩

/-- C6: when no (chain, token) obligation exists, `sendTokens` throws, having called
neither `mint` nor a contract constructor; lines 173-179 of the handler then answer
400, and so does the whole `/request-tokens` handler, for every request. -/
theorem sendTokens_nothing_to_distribute (D : Deps) (address : JsVal) (s : Store)
    (h : obligations D s = []) :
    (∃ e, (sendTokens D address s).1 = .error e) ∧
    (∃ extra, (sendTokens D address s).2 = { s with log := s.log ++ extra } ∧
      ∀ e ∈ extra, e.isMint = false ∧ ∀ x, e ≠ .newContract x) ∧
    (respond (sendAndAnswer D address) s).1.status = 400 ∧
    ∀ req : Request RequestTokensBody,
      (requestTokens D req s).1.status = 400 ∧ (requestTokens D req s).1.status ≠ 200 := by
  refine ⟨sendTokens_throws D address s,
    sendTokens_log_empty D address s (tokensOn_of_obligations D s h),
    sendAndAnswer_throws D address s, fun req => ?_⟩
  have h4 := (requestTokens_total D req s).1
  exact ⟨h4, by rw [h4]; decide⟩

/-- C6, an instance: no chain is registered. -/
theorem sendTokens_nothing_to_distribute_witness :
    obligations sampleDeps emptyStore = [] ∧
    (∃ e, (sendTokens sampleDeps walletA emptyStore).1 = .error e) ∧
    (respond (sendAndAnswer sampleDeps walletA) emptyStore).1.status = 400 :=
  have h := sendTokens_nothing_to_distribute sampleDeps walletA emptyStore rfl
  ⟨rfl, h.1, h.2.2.1⟩

/-- Handled one after the other, `/request-tokens` requests leave the store, log
included, as it was, and each is answered 400. -/
theorem requestTokensAll_total (D : Deps) (reqs : List (Request RequestTokensBody)) :
    ∀ s : Store, (requestTokensAll D reqs s).2 = s ∧
      ∀ a ∈ (requestTokensAll D reqs s).1, a.status = 400 := by
  induction reqs with
  | nil => intro s; simp [requestTokensAll]
  | cons r rest ih =>
    intro s
    have h := requestTokens_total D r s
    simp only [requestTokensAll, h.2, List.mem_cons]
    refine ⟨(ih s).1, ?_⟩
    rintro a (ha | ha)
    · rw [ha]; exact h.1
    · exact (ih s).2 a ha

/-- C10, the code at two requests started together on a ledger without a claim: two
requests for the same wallet (from two addresses), and two requests from the same
address (for two wallets), are all answered 400 "ipAddress is not defined"; the store
is left as it was, no effect is logged, and no request has reached `sendTokens`. -/
theorem requestTokens_concurrent_none_passes :
    sampleDeps.isAddress walletA = true ∧ sampleDeps.isAddress walletB = true ∧
    registryStore.claims = [] ∧
    requestTokensAll sampleDeps [claimRequest walletA, otherClaimRequest walletA] registryStore
      = ([{ status := 400, body := some "ipAddress is not defined" },
          { status := 400, body := some "ipAddress is not defined" }], registryStore) ∧
    requestTokensAll sampleDeps [claimRequest walletA, claimRequest walletB] registryStore
      = ([{ status := 400, body := some "ipAddress is not defined" },
          { status := 400, body := some "ipAddress is not defined" }], registryStore) ∧
    ((requestTokensAll sampleDeps [claimRequest walletA, otherClaimRequest walletA]
        registryStore).2.log.filter Effect.isSendTokensCall).length = 0 ∧
    ((requestTokensAll sampleDeps [claimRequest walletA, claimRequest walletB]
        registryStore).2.log.filter Effect.isSendTokensCall).length = 0 := by
  have hA : sampleDeps.isAddress walletA = true := by decide
  have hB : sampleDeps.isAddress walletB = true := by decide
  have h1 := requestTokens_reference_error sampleDeps (claimRequest walletA) ⟨walletA⟩
    registryStore rfl (by decide) hA
  have h2 := requestTokens_reference_error sampleDeps (otherClaimRequest walletA) ⟨walletA⟩
    registryStore rfl (by decide) hA
  have h3 := requestTokens_reference_error sampleDeps (claimRequest walletB) ⟨walletB⟩
    registryStore rfl (by decide) hB
  have e1 : requestTokensAll sampleDeps [claimRequest walletA, otherClaimRequest walletA]
      registryStore = ([{ status := 400, body := some "ipAddress is not defined" },
        { status := 400, body := some "ipAddress is not defined" }], registryStore) := by
    simp [requestTokensAll, h1, h2]
  have e2 : requestTokensAll sampleDeps [claimRequest walletA, claimRequest walletB]
      registryStore = ([{ status := 400, body := some "ipAddress is not defined" },
        { status := 400, body := some "ipAddress is not defined" }], registryStore) := by
    simp [requestTokensAll, h1, h3]
  refine ⟨hA, hB, rfl, e1, e2, ?_, ?_⟩
  · rw [e1]; rfl
  · rw [e2]; rfl

/-! ## The claims about the registry handlers -/

theorem chainIds_addChain_nodup (D : Deps) (req : Request AddChainBody) (s : Store)
    (h : (chainIds s).Nodup) : (chainIds (addChain D req s).2).Nodup := by
  rcases addChain_cases D req s with ⟨_, hc, _⟩ | ⟨b, n, q, u, _, _, _, _, hf, _, hs⟩
  · simpa [chainIds, hc] using h
  · rw [hs]
    have hq : ∀ c ∈ s.chains, ¬ c.chainId = q := by
      intro c hc
      have := List.find?_eq_none.mp hf c hc
      exact ne_of_fieldMatches_false (by simpa using this)
    simp only [chainIds, List.map_append, List.map_cons, List.map_nil] at h ⊢
    rw [List.nodup_append]
    refine ⟨h, List.nodup_singleton _, ?_⟩
    intro x hx hx2
    rw [List.mem_singleton] at hx2
    obtain ⟨c, hc, rfl⟩ := List.mem_map.mp hx
    exact hq c hc hx2

theorem chainIds_addChainAll_nodup (D : Deps) (reqs : List (Request AddChainBody)) :
    ∀ s : Store, (chainIds s).Nodup → (chainIds (addChainAll D reqs s)).Nodup := by
  induction reqs with
  | nil => intro s h; exact h
  | cons r rest ih =>
    intro s h
    exact ih _ (chainIds_addChain_nodup D r s h)

/-- C7: for a body {name, chainId, rpcUrl} of a string, a safe integer and a string: if
no stored chain has that chainId, exactly that record is appended to Chains (Tokens and
Claims untouched) and the answer is the 200 success text; if one has, the answer is
400 "This chain has already been added." and Chains is unchanged.  And whatever the
bodies, a sequence of `/add-chain` requests keeps pairwise distinct chainIds distinct. -/
theorem addChain_unique_chainId (D : Deps) (req : Request AddChainBody) (s : Store)
    (name rpcUrl : String) (chainId : Int)
    (hb : req.body = some { name := .string name, chainId := .number chainId,
                            rpcUrl := .string rpcUrl })
    (hsafe : -maxSafeInteger ≤ chainId ∧ chainId ≤ maxSafeInteger) :
    ((∀ c ∈ s.chains, c.chainId ≠ .number chainId) →
      (addChain D req s).2.chains = s.chains ++
        [{ name := .string name, chainId := .number chainId, rpcUrl := .string rpcUrl }] ∧
      (addChain D req s).2.tokens = s.tokens ∧ (addChain D req s).2.claims = s.claims ∧
      (addChain D req s).1 = { status := 200, body := some ("SUCCESS: Chain: " ++ name ++
        ", chain ID: " ++ toString chainId ++ ", RPC URL: " ++ rpcUrl) }) ∧
    ((∃ c ∈ s.chains, c.chainId = .number chainId) →
      (addChain D req s).1
        = { status := 400, body := some "This chain has already been added." } ∧
      (addChain D req s).2.chains = s.chains) ∧
    ∀ reqs : List (Request AddChainBody),
      (chainIds s).Nodup → (chainIds (addChainAll D reqs s)).Nodup := by
  refine ⟨?_, ?_, fun reqs h => chainIds_addChainAll_nodup D reqs s h⟩
  · intro hno
    have hf : s.chains.find? (fun c => fieldMatches c.chainId (.number chainId)) = none := by
      rw [List.find?_eq_none]
      intro c hc
      simpa [fieldMatches] using hno c hc
    have ht : isSafeInteger chainId = true := by
      simp [isSafeInteger, hsafe.1, hsafe.2]
    simp [addChain, respond, requireBody, findOneChain, createChain, castNumber, castString,
      hb, hf, ht, bind, pure, Js.andThen, Js.ret, Js.lift, Js.emit, Js.store, toText]
  · rintro ⟨c, hc, hcn⟩
    have hsome : (s.chains.find? (fun c => fieldMatches c.chainId (.number chainId))).isSome
        = true := by
      rw [List.find?_isSome]
      exact ⟨c, hc, by simp [fieldMatches, hcn]⟩
    obtain ⟨c2, hf⟩ := Option.isSome_iff_exists.mp hsome
    simp [addChain, respond, requireBody, findOneChain, castNumber, hb, hf, bind, pure,
      Js.andThen, Js.ret, Js.lift, Js.emit, Js.store, Js.fail]

/-- C7, an instance: chain 1 is added to an empty registry with the answer the handler
sends, adding chain 11155111 again is refused, and a run of three requests leaves
distinct chainIds. -/
theorem addChain_unique_chainId_witness :
    (addChain sampleDeps (chainRequest (.string "A") (.number 1) (.string "u")) emptyStore).2.chains
      = [{ name := .string "A", chainId := .number 1, rpcUrl := .string "u" }] ∧
    (addChain sampleDeps (chainRequest (.string "A") (.number 1) (.string "u")) emptyStore).1
      = { status := 200, body := some "SUCCESS: Chain: A, chain ID: 1, RPC URL: u" } ∧
    (addChain sampleDeps (chainRequest (.string "B") (.number 11155111) (.string "v"))
        registryStore).1
      = { status := 400, body := some "This chain has already been added." } ∧
    (chainIds (addChainAll sampleDeps
      [chainRequest (.string "A") (.number 1) (.string "u"),
       chainRequest (.string "B") (.number 1) (.string "v"),
       chainRequest (.string "C") (.number 2) (.string "w")] emptyStore)).Nodup :=
  ⟨((addChain_unique_chainId sampleDeps (chainRequest (.string "A") (.number 1) (.string "u"))
      emptyStore "A" "u" 1 rfl (by decide)).1 (by simp [emptyStore])).1,
   ((addChain_unique_chainId sampleDeps (chainRequest (.string "A") (.number 1) (.string "u"))
      emptyStore "A" "u" 1 rfl (by decide)).1 (by simp [emptyStore])).2.2.2,
   ((addChain_unique_chainId sampleDeps
      (chainRequest (.string "B") (.number 11155111) (.string "v")) registryStore "B" "v"
      11155111 rfl (by decide)).2.1 ⟨_, List.mem_singleton.mpr rfl, rfl⟩).1,
   (addChain_unique_chainId sampleDeps (chainRequest (.string "A") (.number 1) (.string "u"))
      emptyStore "A" "u" 1 rfl (by decide)).2.2 _ (by simp [chainIds, emptyStore])⟩

theorem tokenKeys_addToken_inv (D : Deps) (req : Request AddTokenBody) (s : Store)
    (h : (tokenKeys s).Nodup) (hl : lowercaseAddresses s) :
    (tokenKeys (addToken D req s).2).Nodup ∧ lowercaseAddresses (addToken D req s).2 := by
  rcases addToken_cases D req s with ⟨_, _, ht, _⟩ | ⟨b, a, q, d, _, _, _, _, _, hf, _, hs⟩
  · exact ⟨by simpa [tokenKeys, ht] using h, by simpa [lowercaseAddresses, ht] using hl⟩
  · rw [hs]
    have hq : ∀ t ∈ s.tokens, ¬ (t.address, t.chainId) = (.string (toLowerCase a), q) := by
      intro t ht hpair
      have hm := List.find?_eq_none.mp hf t ht
      have h1 : t.address = .string (toLowerCase a) := congrArg Prod.fst hpair
      have h2 : t.chainId = q := congrArg Prod.snd hpair
      rw [h1, h2, fieldMatches_self, fieldMatches_self] at hm
      exact hm rfl
    constructor
    · simp only [tokenKeys, List.map_append, List.map_cons, List.map_nil] at h ⊢
      rw [List.nodup_append]
      refine ⟨h, List.nodup_singleton _, ?_⟩
      intro x hx hx2
      rw [List.mem_singleton] at hx2
      obtain ⟨t, ht, rfl⟩ := List.mem_map.mp hx
      exact hq t ht hx2
    · intro t ht
      simp only [List.mem_append, List.mem_singleton] at ht
      rcases ht with ht | ht
      · exact hl t ht
      · subst ht
        exact ⟨toLowerCase a, rfl, toLowerCase_idem a⟩

theorem tokenKeys_addTokenAll_inv (D : Deps) (reqs : List (Request AddTokenBody)) :
    ∀ s : Store, (tokenKeys s).Nodup → lowercaseAddresses s →
      (tokenKeys (addTokenAll D reqs s)).Nodup ∧ lowercaseAddresses (addTokenAll D reqs s) := by
  induction reqs with
  | nil => intro s h hl; exact ⟨h, hl⟩
  | cons r rest ih =>
    intro s h hl
    exact ih _ (tokenKeys_addToken_inv D r s h hl).1 (tokenKeys_addToken_inv D r s h hl).2

/-- C8: an accepted `/add-token` request carries a string `tokenAddress` and appends one
token whose address is its lower-case form; after an accepted request, a request for
the same chainId whose tokenAddress has the same lower-case form is answered 400 and
leaves Tokens as it was; and a sequence of `/add-token` requests keeps a collection of
lower-case, pairwise distinct (address, chainId) pairs lower-case and pairwise
distinct. -/
theorem addToken_lowercase_unique (D : Deps) (s : Store) :
    (∀ req : Request AddTokenBody, (addToken D req s).1.status = 200 →
      ∃ b a q d, req.body = some b ∧ b.tokenAddress = .string a ∧
        (addToken D req s).2.tokens = s.tokens ++
          [{ name := .undefined, address := .string (toLowerCase a), chainId := q,
             distributionAmount := d }]) ∧
    (∀ (r1 r2 : Request AddTokenBody) (b1 b2 : AddTokenBody) (a1 a2 : String),
      r1.body = some b1 → r2.body = some b2 →
      b1.tokenAddress = .string a1 → b2.tokenAddress = .string a2 →
      toLowerCase a1 = toLowerCase a2 → b1.chainId = b2.chainId →
      (addToken D r1 s).1.status = 200 →
      (addToken D r2 (addToken D r1 s).2).1.status = 400 ∧
      (addToken D r2 (addToken D r1 s).2).2.tokens = (addToken D r1 s).2.tokens) ∧
    (∀ reqs : List (Request AddTokenBody), (tokenKeys s).Nodup → lowercaseAddresses s →
      (tokenKeys (addTokenAll D reqs s)).Nodup ∧
      lowercaseAddresses (addTokenAll D reqs s)) := by
  refine ⟨?_, ?_, fun reqs h hl => tokenKeys_addTokenAll_inv D reqs s h hl⟩
  · intro req hok
    rcases addToken_cases D req s with ⟨h400, _⟩ | ⟨b, a, q, d, hb, ha, _, _, _, _, _, hs⟩
    · rw [h400] at hok
      cases hok
    · exact ⟨b, a, q, .string d, hb, ha, by rw [hs]⟩
  · intro r1 r2 b1 b2 a1 a2 hb1 hb2 ha1 ha2 hlow hchain hok
    rcases addToken_cases D r1 s with ⟨h400, _⟩ | ⟨b, a, q, d, hb, ha, _, _, hq, _, _, hs⟩
    · rw [h400] at hok
      cases hok
    · rw [hb1] at hb
      cases hb
      rw [ha1] at ha
      cases ha
      rcases addToken_cases D r2 (addToken D r1 s).2 with
        ⟨h400, _, ht, _⟩ | ⟨b', a', q', d', hb', ha', _, _, hq', hf', _, _⟩
      · exact ⟨h400, ht⟩
      · exfalso
        rw [hb2] at hb'
        cases hb'
        rw [ha2] at ha'
        cases ha'
        rw [← hchain, hq] at hq'
        cases hq'
        rw [hs, ← hlow] at hf'
        have hm := List.find?_eq_none.mp hf'
          { name := .undefined, address := .string (toLowerCase a1), chainId := q,
            distributionAmount := .string d } (by simp)
        simp [fieldMatches_self] at hm

/-- C8, an instance: a mixed-case address is stored lower-cased on chain 1, the same
address in lower case is then refused for chain 1, and both requests in a row leave one
token. -/
theorem addToken_lowercase_unique_witness :
    (addToken sampleDeps upperRequest emptyStore).2.tokens
      = [{ name := .undefined,
           address := .string "0x00000000000000000000000000000000000000cc",
           chainId := .number 1, distributionAmount := .string "5000000000000000000" }] ∧
    (addToken sampleDeps lowerRequest (addToken sampleDeps upperRequest emptyStore).2).1.status
      = 400 ∧
    (tokenKeys (addTokenAll sampleDeps [upperRequest, lowerRequest] emptyStore)).Nodup :=
  ⟨by decide,
   ((addToken_lowercase_unique sampleDeps emptyStore).2.1 upperRequest lowerRequest upperBody
      lowerBody "0x00000000000000000000000000000000000000CC"
      "0x00000000000000000000000000000000000000cc" rfl rfl rfl rfl (by decide) rfl
      (by decide)).1,
   ((addToken_lowercase_unique sampleDeps emptyStore).2.2 [upperRequest, lowerRequest]
      (by simp [tokenKeys, emptyStore]) (by intro t ht; simp [emptyStore] at ht)).1⟩

/-- C9, the claim fails: an `/add-chain` body with none of name, chainId, rpcUrl is
answered 200 and a chain document is inserted; an `/add-token` body without chainId is
answered 200 and a token document is inserted. -/
theorem missing_fields_accepted :
    (addChain sampleDeps (chainRequest .undefined .undefined .undefined) emptyStore).1.status
      = 200 ∧
    (addChain sampleDeps (chainRequest .undefined .undefined .undefined) emptyStore).2.chains
      = [{ name := .undefined, chainId := .undefined, rpcUrl := .undefined }] ∧
    (addToken sampleDeps (tokenRequest (.string "T")
        (.string "0x00000000000000000000000000000000000000cc") (.number 18) .undefined
        (.string "5")) emptyStore).1.status = 200 ∧
    (addToken sampleDeps (tokenRequest (.string "T")
        (.string "0x00000000000000000000000000000000000000cc") (.number 18) .undefined
        (.string "5")) emptyStore).2.tokens
      = [{ name := .undefined,
           address := .string "0x00000000000000000000000000000000000000cc",
           chainId := .undefined, distributionAmount := .string "5000000000000000000" }] := by
  refine ⟨by decide, by decide, by decide, by decide⟩

/-- C9 as amended: the three handlers answer 400 and leave the store, log included, as
it was (no collection is touched, no provider is built, no `mint` is sent) when the
body is missing; so does `/request-tokens` when `walletAddress` is missing or is not an
address, and `/add-token` when `tokenAddress` is missing or not a string, when its
lower-case form is not an address, or when `ethers.parseUnits` rejects `amount` and
`decimals`. -/
theorem validation_rejects_untouched (D : Deps) (s : Store) :
    (∀ req : Request RequestTokensBody,
      (req.body = none ∨ ∃ b, req.body = some b ∧
        (b.walletAddress = .undefined ∨ D.isAddress b.walletAddress = false)) →
      (requestTokens D req s).1.status = 400 ∧ (requestTokens D req s).2 = s) ∧
    (∀ req : Request AddTokenBody,
      (req.body = none ∨ ∃ b, req.body = some b ∧
        (b.tokenAddress = .undefined ∨
         (∀ a, b.tokenAddress = .string a → D.isAddress (.string (toLowerCase a)) = false) ∨
         ∃ e, D.parseUnits b.amount b.decimals = .error e)) →
      (addToken D req s).1.status = 400 ∧ (addToken D req s).2 = s) ∧
    (∀ req : Request AddChainBody, req.body = none →
      (addChain D req s).1.status = 400 ∧ (addChain D req s).2 = s) := by
  refine ⟨fun req _ => requestTokens_total D req s, ?_, ?_⟩
  · intro req h
    rcases h with hb | ⟨b, hb, h⟩
    · simp [addToken, respond, requireBody, hb, bind, Js.andThen, Js.fail]
    · cases ha : b.tokenAddress with
      | undefined | null | bool _ | number _ =>
        simp [addToken, respond, requireBody, lowerCaseOf, hb, ha, bind, pure, Js.andThen,
          Js.ret, Js.fail]
      | string a =>
        cases hd : D.parseUnits b.amount b.decimals with
        | error e =>
          simp [addToken, respond, requireBody, lowerCaseOf, hb, ha, hd, bind, pure,
            Js.andThen, Js.ret, Js.fail, Js.lift]
        | ok d =>
          have hv : D.isAddress (.string (toLowerCase a)) = false := by
            rcases h with h | h | ⟨e, h⟩
            · rw [ha] at h
              cases h
            · exact h a ha
            · rw [hd] at h
              cases h
          simp [addToken, respond, requireBody, lowerCaseOf, hb, ha, hd, hv, bind, pure,
            Js.andThen, Js.ret, Js.fail, Js.lift]
  · intro req hb
    simp [addChain, respond, requireBody, hb, bind, Js.andThen, Js.fail]

/-- C9, an instance: no `walletAddress`, a `tokenAddress` that is not hexadecimal, and
an `/add-chain` request without a body are each answered 400 on an untouched store. -/
theorem validation_rejects_untouched_witness :
    (requestTokens sampleDeps (claimRequest .undefined) registryStore).1.status = 400 ∧
    (requestTokens sampleDeps (claimRequest .undefined) registryStore).2 = registryStore ∧
    (addToken sampleDeps (tokenRequest (.string "T") (.string "0xnothex") (.number 18)
      (.number 1) (.string "5")) registryStore).2 = registryStore ∧
    (addChain sampleDeps { xRealIp := .undefined, remoteAddress := .undefined, body := none }
      registryStore).2 = registryStore :=
  have h := validation_rejects_untouched sampleDeps registryStore
  ⟨(h.1 (claimRequest .undefined) (Or.inr ⟨_, rfl, Or.inl rfl⟩)).1,
   (h.1 (claimRequest .undefined) (Or.inr ⟨_, rfl, Or.inl rfl⟩)).2,
   (h.2.1 (tokenRequest (.string "T") (.string "0xnothex") (.number 18) (.number 1)
      (.string "5")) (Or.inr ⟨_, rfl, Or.inr (Or.inl (fun a ha => by
        cases ha
        decide))⟩)).2,
   (h.2.2 _ rfl).2⟩

end Faucet
